import Mathlib

/-
Verification development for the Capstone backend security/compliance core.
The JavaScript source is shallowly embedded: times are naturals (milliseconds),
the in-memory lockout `Map` is a function from normalized keys to optional
records, database/environment effects are explicit parameters, and fallible
database calls are `Except` values.  Identity strings are handled as their
character lists (`String.data`) so that all definitions evaluate inside the
kernel.
-/

/-- jsLower models JavaScript `email.toLowerCase()` on the characters of a
string; lockout records are keyed by this normalized form. -/
def jsLower (s : String) : List Char :=
  s.data.map Char.toLower

-- ============================================================================
-- Account lockout (class AccountLockout)
-- ============================================================================

/-- LockRecord embeds the per-identity record stored in `this.attempts`:
`{ count, last, ips, locked }`, where `locked` is the `lockedUntil` timestamp
(or `null`, i.e. `none`). -/
structure LockRecord where
  count : Nat
  last : Nat
  ips : List String
  locked : Option Nat
  deriving Repr, DecidableEq

/-- maxAttempts embeds `this.max = 5`. -/
def maxAttempts : Nat := 5

/-- lockTime embeds `this.lockTime = 30 * 60 * 1000` (30 minutes). -/
def lockTime : Nat := 30 * 60 * 1000

/-- resetTime embeds `this.resetTime = 15 * 60 * 1000` (15 minutes). -/
def resetTime : Nat := 15 * 60 * 1000

/-- LockoutMap embeds `this.attempts : Map<string, LockRecord>` as a function
from normalized keys (character lists) to optional records. -/
def LockoutMap : Type := List Char → Option LockRecord

/-- LockoutMap.set embeds `this.attempts.set(key, v)`. -/
def LockoutMap.set (m : LockoutMap) (k : List Char) (v : LockRecord) : LockoutMap :=
  fun q => if q = k then some v else m q

/-- LockoutMap.del embeds `this.attempts.delete(key)`. -/
def LockoutMap.del (m : LockoutMap) (k : List Char) : LockoutMap :=
  fun q => if q = k then none else m q

/-- recordFailedAttempt embeds `AccountLockout.recordFailedAttempt(email, ip)`
at wall-clock time `now`: a missing or stale record (more than `resetTime`
since the last failure) is replaced by a fresh `count = 1` record; otherwise
the count is incremented, the source appended, and once the incremented count
reaches `maxAttempts` the record's `locked` field is set to `now + lockTime`. -/
def recordFailedAttempt (now : Nat) (email ip : String) (m : LockoutMap) : LockoutMap :=
  let key := jsLower email
  match m key with
  | none =>
      m.set key { count := 1, last := now, ips := [ip], locked := none }
  | some record =>
      if now - record.last > resetTime then
        m.set key { count := 1, last := now, ips := [ip], locked := none }
      else
        m.set key
          { count := record.count + 1
            last := now
            ips := record.ips ++ [ip]
            locked :=
              if record.count + 1 ≥ maxAttempts then some (now + lockTime)
              else record.locked }

/-- recordSuccessfulLogin embeds `AccountLockout.recordSuccessfulLogin(email)`:
it deletes the identity's record unconditionally. -/
def recordSuccessfulLogin (email : String) (m : LockoutMap) : LockoutMap :=
  m.del (jsLower email)

/-- LockStatus embeds the object returned by `AccountLockout.isLocked`; the
ISO rendering of `unlockAt` is kept as the raw millisecond timestamp. -/
structure LockStatus where
  locked : Bool
  remainingMinutes : Option Nat
  unlockAt : Option Nat
  deriving Repr, DecidableEq

/-- isLocked embeds `AccountLockout.isLocked(email)` at time `now`.  It both
returns the status and (because an expired lock is deleted on the spot) the
possibly-updated map.  `Math.ceil((locked - now) / 60000)` on a positive
difference is `(locked - now + 59999) / 60000` in natural division. -/
def isLocked (now : Nat) (email : String) (m : LockoutMap) : LockStatus × LockoutMap :=
  let key := jsLower email
  match m key with
  | none => ({ locked := false, remainingMinutes := none, unlockAt := none }, m)
  | some record =>
      match record.locked with
      | none => ({ locked := false, remainingMinutes := none, unlockAt := none }, m)
      | some l =>
          if now < l then
            ({ locked := true
               remainingMinutes := some ((l - now + 59999) / 60000)
               unlockAt := some l }, m)
          else
            ({ locked := false, remainingMinutes := none, unlockAt := none }, m.del key)

example :
    (recordFailedAttempt 0 ("A@B.com") ("1.1.1.1") (fun _ => none)) (jsLower ("a@b.com")) =
      some { count := 1, last := 0, ips := [("1.1.1.1")], locked := none } := by
  decide

-- ============================================================================
-- Lockout step lemmas
-- ============================================================================

lemma LockoutMap.set_lookup (m : LockoutMap) (k : List Char) (v : LockRecord) :
    (m.set k v) k = some v := by
  simp [LockoutMap.set]

lemma recordFailedAttempt_fresh (m : LockoutMap) (email ip : String) (now : Nat)
    (h : m (jsLower email) = none) :
    recordFailedAttempt now email ip m =
      m.set (jsLower email) { count := 1, last := now, ips := [ip], locked := none } := by
  simp [recordFailedAttempt, h]

lemma recordFailedAttempt_stale (m : LockoutMap) (email ip : String) (now : Nat)
    (r : LockRecord) (h : m (jsLower email) = some r)
    (hq : resetTime < now - r.last) :
    recordFailedAttempt now email ip m =
      m.set (jsLower email) { count := 1, last := now, ips := [ip], locked := none } := by
  simp only [recordFailedAttempt, h]
  rw [if_pos hq]

lemma recordFailedAttempt_step (m : LockoutMap) (email ip : String) (now : Nat)
    (r : LockRecord) (h : m (jsLower email) = some r)
    (hw : now - r.last ≤ resetTime) :
    recordFailedAttempt now email ip m =
      m.set (jsLower email)
        { count := r.count + 1
          last := now
          ips := r.ips ++ [ip]
          locked :=
            if r.count + 1 ≥ maxAttempts then some (now + lockTime) else r.locked } := by
  simp only [recordFailedAttempt, h]
  rw [if_neg (by omega)]

-- ============================================================================
-- C1: behaviour of a further failure while locked
-- ============================================================================

def c1M0 : LockoutMap := fun _ => none

def c1Email : String := "User@Example.com"

/-- c1State5 is the lockout map after five failed attempts for `c1Email` at
times 0, 60000, ..., 240000 ms (gaps of one minute, inside the reset window);
the fifth failure sets `locked = 240000 + lockTime = 2040000`. -/
def c1State5 : LockoutMap :=
  recordFailedAttempt 240000 c1Email ("1.1.1.1")
    (recordFailedAttempt 180000 c1Email ("1.1.1.1")
      (recordFailedAttempt 120000 c1Email ("1.1.1.1")
        (recordFailedAttempt 60000 c1Email ("1.1.1.1")
          (recordFailedAttempt 0 c1Email ("1.1.1.1") c1M0))))

/-- c1State6 records a sixth failed attempt at time 300000 ms, while the lock
set at the fifth attempt (until 2040000 ms) is still active. -/
def c1State6 : LockoutMap :=
  recordFailedAttempt 300000 c1Email ("1.1.1.1") c1State5

/-- C1 counterexample: after five failures the record is locked until
2040000 ms; a sixth failure at 300000 ms — while that lock is still active —
moves `locked` to 300000 + lockTime = 2100000 ms and increments the count to
6, so the existing lock IS extended and the failure count IS examined again,
contrary to the claim. -/
theorem C1_lock_extended_counterexample :
    (c1State5 (jsLower c1Email)).map LockRecord.locked = some (some 2040000) ∧
    (300000 : Nat) < 2040000 ∧
    (c1State6 (jsLower c1Email)).map LockRecord.locked = some (some 2100000) ∧
    (c1State6 (jsLower c1Email)).map LockRecord.count = some 6 ∧
    (some (some (2100000 : Nat)) : Option (Option Nat)) ≠ some (some 2040000) := by
  decide

/-- C1 (amended): while a record exists and the new failure falls within
`resetTime` of the last one, `recordFailedAttempt` increments the count,
re-examines it against `maxAttempts`, and — whenever the incremented count is
at least `maxAttempts`, in particular for every further failure while already
locked — re-sets `locked` to `now + lockTime`, extending the existing lock
rather than leaving it unchanged. -/
theorem recordFailedAttempt_whileLocked_extends
    (m : LockoutMap) (email ip : String) (now : Nat) (r : LockRecord)
    (hrec : m (jsLower email) = some r)
    (hwin : now - r.last ≤ resetTime)
    (hcnt : maxAttempts ≤ r.count + 1) :
    (recordFailedAttempt now email ip m) (jsLower email) =
      some { count := r.count + 1, last := now, ips := r.ips ++ [ip],
             locked := some (now + lockTime) } := by
  rw [recordFailedAttempt_step m email ip now r hrec hwin, LockoutMap.set_lookup,
    if_pos hcnt]

/-- C1 amended-claim witness at the concrete trace of `c1State5`. -/
theorem recordFailedAttempt_whileLocked_extends_witness :
    (recordFailedAttempt 300000 c1Email ("1.1.1.1") c1State5) (jsLower c1Email) =
      some { count := 6, last := 300000,
             ips := [("1.1.1.1"), ("1.1.1.1"), ("1.1.1.1"), ("1.1.1.1"), ("1.1.1.1"),
                     ("1.1.1.1")],
             locked := some 2100000 } :=
  recordFailedAttempt_whileLocked_extends c1State5 c1Email ("1.1.1.1") 300000
    { count := 5, last := 240000,
      ips := [("1.1.1.1"), ("1.1.1.1"), ("1.1.1.1"), ("1.1.1.1"), ("1.1.1.1")],
      locked := some 2040000 }
    (by decide) (by decide) (by decide)

-- ============================================================================
-- C6: a successful login always clears the record
-- ============================================================================

/-- C6: for every identity and every prior state (ACCUMULATING or LOCKED),
`recordSuccessfulLogin` deletes the identity's lockout record unconditionally,
after which `isLocked` reports not locked at any time. -/
theorem recordSuccessfulLogin_clears (m : LockoutMap) (email : String) (now : Nat) :
    (recordSuccessfulLogin email m) (jsLower email) = none ∧
    ((isLocked now email (recordSuccessfulLogin email m)).1).locked = false := by
  constructor
  · simp [recordSuccessfulLogin, LockoutMap.del]
  · simp [isLocked, recordSuccessfulLogin, LockoutMap.del]

-- ============================================================================
-- C10: a failure after a quiet reset window clears an active lock
-- ============================================================================

/-- C10: if the stored record is currently locked (`locked = some l`,
`now < l`) but more than `resetTime` has elapsed since its last failure,
`recordFailedAttempt` replaces it with a fresh `count = 1`, unlocked record,
and `isLocked` subsequently reports not locked at any query time. -/
theorem recordFailedAttempt_afterQuietWindow_unlocks
    (m : LockoutMap) (email ip : String) (now l : Nat) (r : LockRecord)
    (hrec : m (jsLower email) = some r)
    (hlock : r.locked = some l) (hfut : now < l)
    (hquiet : resetTime < now - r.last) :
    (recordFailedAttempt now email ip m) (jsLower email) =
      some { count := 1, last := now, ips := [ip], locked := none } ∧
    ∀ q : Nat, ((isLocked q email (recordFailedAttempt now email ip m)).1).locked = false := by
  have hstep := recordFailedAttempt_stale m email ip now r hrec hquiet
  constructor
  · rw [hstep, LockoutMap.set_lookup]
  · intro q
    rw [hstep]
    simp [isLocked, LockoutMap.set]

def c10M0 : LockoutMap := fun _ => none

def c10Email : String := "Bob@Mail.com"

/-- c10State5 is the map after five failed attempts for `c10Email` at times
0, 1000, 2000, 3000, 4000 ms; the record is locked until 1804000 ms. -/
def c10State5 : LockoutMap :=
  recordFailedAttempt 4000 c10Email ("5.5.5.5")
    (recordFailedAttempt 3000 c10Email ("5.5.5.5")
      (recordFailedAttempt 2000 c10Email ("5.5.5.5")
        (recordFailedAttempt 1000 c10Email ("5.5.5.5")
          (recordFailedAttempt 0 c10Email ("5.5.5.5") c10M0))))

/-- C10 witness: a failure at 910000 ms (906000 ms after the last failure,
past the 900000 ms reset window, yet before the 1804000 ms lock expiry)
resets the record and unlocks the identity. -/
theorem recordFailedAttempt_afterQuietWindow_unlocks_witness :
    (recordFailedAttempt 910000 c10Email ("5.5.5.5") c10State5) (jsLower c10Email) =
      some { count := 1, last := 910000, ips := [("5.5.5.5")], locked := none } ∧
    ((isLocked 910000 c10Email
        (recordFailedAttempt 910000 c10Email ("5.5.5.5") c10State5)).1).locked = false := by
  have h := recordFailedAttempt_afterQuietWindow_unlocks c10State5 c10Email ("5.5.5.5")
      910000 1804000
      { count := 5, last := 4000,
        ips := [("5.5.5.5"), ("5.5.5.5"), ("5.5.5.5"), ("5.5.5.5"), ("5.5.5.5")],
        locked := some 1804000 }
      (by decide) (by decide) (by decide) (by decide)
  exact ⟨h.1, h.2 910000⟩

-- ============================================================================
-- C5: exactly maxAttempts failures lock; expiry clears the record
-- ============================================================================

/-- C5: starting from no record, five consecutive `recordFailedAttempt` calls
whose successive gaps stay within `resetTime` produce a record locked until
`t5 + lockTime`; before that instant `isLocked` reports locked with a
positive `remainingMinutes`, and from that instant on it reports not locked
and deletes the record from the map. -/
theorem lockout_after_maxAttempts
    (m0 : LockoutMap) (email ip1 ip2 ip3 ip4 ip5 : String)
    (t1 t2 t3 t4 t5 now : Nat) (m5 : LockoutMap)
    (h0 : m0 (jsLower email) = none)
    (g1 : t2 - t1 ≤ resetTime) (g2 : t3 - t2 ≤ resetTime)
    (g3 : t4 - t3 ≤ resetTime) (g4 : t5 - t4 ≤ resetTime)
    (hm5 : m5 = recordFailedAttempt t5 email ip5 (recordFailedAttempt t4 email ip4
      (recordFailedAttempt t3 email ip3 (recordFailedAttempt t2 email ip2
        (recordFailedAttempt t1 email ip1 m0))))) :
    (now < t5 + lockTime →
      ((isLocked now email m5).1).locked = true ∧
      ((isLocked now email m5).1).remainingMinutes =
        some ((t5 + lockTime - now + 59999) / 60000) ∧
      0 < (t5 + lockTime - now + 59999) / 60000) ∧
    (t5 + lockTime ≤ now →
      ((isLocked now email m5).1).locked = false ∧
      ((isLocked now email m5).2) (jsLower email) = none) := by
  subst hm5
  have s1 := recordFailedAttempt_fresh m0 email ip1 t1 h0
  have l1 : (recordFailedAttempt t1 email ip1 m0) (jsLower email) =
      some { count := 1, last := t1, ips := [ip1], locked := none } := by
    rw [s1, LockoutMap.set_lookup]
  have s2 := recordFailedAttempt_step _ email ip2 t2 _ l1 g1
  have l2 : (recordFailedAttempt t2 email ip2 (recordFailedAttempt t1 email ip1 m0))
      (jsLower email) =
      some { count := 2, last := t2, ips := [ip1, ip2], locked := none } := by
    rw [s2, LockoutMap.set_lookup, if_neg (by decide : ¬ (1 + 1 ≥ maxAttempts))]
    rfl
  have s3 := recordFailedAttempt_step _ email ip3 t3 _ l2 g2
  have l3 : (recordFailedAttempt t3 email ip3 (recordFailedAttempt t2 email ip2
      (recordFailedAttempt t1 email ip1 m0))) (jsLower email) =
      some { count := 3, last := t3, ips := [ip1, ip2, ip3], locked := none } := by
    rw [s3, LockoutMap.set_lookup, if_neg (by decide : ¬ (2 + 1 ≥ maxAttempts))]
    rfl
  have s4 := recordFailedAttempt_step _ email ip4 t4 _ l3 g3
  have l4 : (recordFailedAttempt t4 email ip4 (recordFailedAttempt t3 email ip3
      (recordFailedAttempt t2 email ip2 (recordFailedAttempt t1 email ip1 m0))))
      (jsLower email) =
      some { count := 4, last := t4, ips := [ip1, ip2, ip3, ip4], locked := none } := by
    rw [s4, LockoutMap.set_lookup, if_neg (by decide : ¬ (3 + 1 ≥ maxAttempts))]
    rfl
  have s5 := recordFailedAttempt_step _ email ip5 t5 _ l4 g4
  have l5 : (recordFailedAttempt t5 email ip5 (recordFailedAttempt t4 email ip4
      (recordFailedAttempt t3 email ip3 (recordFailedAttempt t2 email ip2
        (recordFailedAttempt t1 email ip1 m0))))) (jsLower email) =
      some { count := 5, last := t5, ips := [ip1, ip2, ip3, ip4, ip5],
             locked := some (t5 + lockTime) } := by
    rw [s5, LockoutMap.set_lookup, if_pos (by decide : 4 + 1 ≥ maxAttempts)]
    rfl
  constructor
  · intro hnow
    have hdiv : 0 < (t5 + lockTime - now + 59999) / 60000 :=
      Nat.div_pos (by omega) (by norm_num)
    refine ⟨?_, ?_, hdiv⟩
    · simp [isLocked, l5, hnow]
    · simp [isLocked, l5, hnow]
  · intro hnow
    have hnot : ¬ now < t5 + lockTime := by omega
    constructor
    · simp [isLocked, l5, hnot]
    · simp [isLocked, l5, hnot, LockoutMap.del]

def c5M0 : LockoutMap := fun _ => none

def c5Email : String := "Eve@Mail.com"

/-- c5State is the map after five failed attempts for `c5Email` at times
0, 1000, 2000, 3000, 4000 ms; the fifth failure locks until 1804000 ms. -/
def c5State : LockoutMap :=
  recordFailedAttempt 4000 c5Email ("7.7.7.7")
    (recordFailedAttempt 3000 c5Email ("7.7.7.7")
      (recordFailedAttempt 2000 c5Email ("7.7.7.7")
        (recordFailedAttempt 1000 c5Email ("7.7.7.7")
          (recordFailedAttempt 0 c5Email ("7.7.7.7") c5M0))))

/-- C5 witness: right after the fifth failure (query at 4000 ms) the identity
is locked for 30 more minutes; at 1804000 ms the lock has expired, `isLocked`
reports not locked, and the record is gone from the returned map. -/
theorem lockout_after_maxAttempts_witness :
    ((isLocked 4000 c5Email c5State).1).locked = true ∧
    ((isLocked 4000 c5Email c5State).1).remainingMinutes = some 30 ∧
    ((isLocked 1804000 c5Email c5State).1).locked = false ∧
    ((isLocked 1804000 c5Email c5State).2) (jsLower c5Email) = none := by
  have h1 := lockout_after_maxAttempts c5M0 c5Email ("7.7.7.7") ("7.7.7.7") ("7.7.7.7")
      ("7.7.7.7") ("7.7.7.7") 0 1000 2000 3000 4000 4000 c5State rfl
      (by decide) (by decide) (by decide) (by decide) rfl
  have h2 := lockout_after_maxAttempts c5M0 c5Email ("7.7.7.7") ("7.7.7.7") ("7.7.7.7")
      ("7.7.7.7") ("7.7.7.7") 0 1000 2000 3000 4000 1804000 c5State rfl
      (by decide) (by decide) (by decide) (by decide) rfl
  exact ⟨(h1.1 (by decide)).1, (h1.1 (by decide)).2.1,
    (h2.2 (by decide)).1, (h2.2 (by decide)).2⟩

-- ============================================================================
-- Compliance monitor (class ComplianceMonitor)
-- ============================================================================

/-- CheckResult embeds the object returned by each individual compliance
check: `{ control, name, passed, issues, ... }` (the extra per-check fields
such as `checkedAt` and `allowedOrigins` are not needed by any claim). -/
structure CheckResult where
  control : String
  name : String
  passed : Bool
  issues : List String
  deriving Repr, DecidableEq

/-- MonitorEnv gathers the ambient state the seven checks read: environment
variables (`none` = unset) and the database, with every fallible database
call embedded as an `Except` whose `error` case is a thrown exception
carrying `e.message`. -/
structure MonitorEnv where
  secretToken : Option String
  dbReadyState : Nat
  dbCountDocs : Except String Nat
  recentLogsCount : Except String Nat
  totalLogsCount : Except String Nat
  jwtExpiresTime : Option String
  jwtRefreshExpiresTime : Option String

/-- checkAuth embeds `ComplianceMonitor.checkAuth`: one issue when
`SECRET_TOKEN` is unset or shorter than 32 characters. -/
def checkAuth (env : MonitorEnv) : CheckResult :=
  let issues :=
    match env.secretToken with
    | none => ["JWT secret not configured or too weak"]
    | some tok =>
        if tok.data.length < 32 then ["JWT secret not configured or too weak"] else []
  { control := "CC6.1", name := "Authentication Controls",
    passed := issues.length = 0, issues := issues }

/-- checkEncryption embeds `ComplianceMonitor.checkEncryption`: it never
produces an issue. -/
def checkEncryption (_env : MonitorEnv) : CheckResult :=
  { control := "CC6.3/CC6.4", name := "Encryption Controls",
    passed := true, issues := [] }

/-- dbStateName embeds the `stateMap[dbState] || 'unknown state'` lookup used
in the disconnected-database message. -/
def dbStateName (state : Nat) : String :=
  if state = 0 then "disconnected"
  else if state = 2 then "connecting"
  else if state = 3 then "disconnecting"
  else "unknown state"

/-- checkDatabase embeds `ComplianceMonitor.checkDatabase`: inside one big
`try`, a non-connected `readyState` pushes a first issue, then the test query
runs; a thrown query is caught and appends `Database connectivity error: e`.
-/
def checkDatabase (env : MonitorEnv) : CheckResult :=
  let stateIssues :=
    if env.dbReadyState ≠ 1 then ["Database not connected: " ++ dbStateName env.dbReadyState]
    else []
  let issues :=
    match env.dbCountDocs with
    | Except.ok _ => stateIssues
    | Except.error e => stateIssues ++ ["Database connectivity error: " ++ e]
  { control := "A1.2", name := "Database Connectivity",
    passed := issues.length = 0, issues := issues }

/-- checkLogs embeds `ComplianceMonitor.checkLogs`: if there is no security
audit log in the last hour while more than 10 exist in total, that is an
issue; a thrown count query is caught as `Error checking logs: e`. -/
def checkLogs (env : MonitorEnv) : CheckResult :=
  let issues :=
    match env.recentLogsCount with
    | Except.error e => ["Error checking logs: " ++ e]
    | Except.ok recent =>
        if recent = 0 then
          match env.totalLogsCount with
          | Except.error e => ["Error checking logs: " ++ e]
          | Except.ok total =>
              if total > 10 then
                ["No security audit logs in the last hour (may indicate logging failure)"]
              else []
        else []
  { control := "C1.2", name := "Access Log Controls",
    passed := issues.length = 0, issues := issues }

/-- checkRateLimit embeds `ComplianceMonitor.checkRateLimit`: it never
produces an issue. -/
def checkRateLimit (_env : MonitorEnv) : CheckResult :=
  { control := "CC6.1", name := "Rate Limiting Controls",
    passed := true, issues := [] }

/-- corsAllowedOrigins embeds the hard-coded CORS whitelist. -/
def corsAllowedOrigins : List String :=
  ["http://localhost:5173", "https://www.avgallery.shop", "https://avgallery.shop"]

/-- checkCORS embeds `ComplianceMonitor.checkCORS` over the hard-coded
whitelist: an empty whitelist or a wildcard entry would be issues. -/
def checkCORS (_env : MonitorEnv) : CheckResult :=
  let issues :=
    (if corsAllowedOrigins.length = 0 then ["CORS whitelist is empty"] else []) ++
    (if corsAllowedOrigins.any (fun o => o = "*") then ["CORS uses wildcard"] else [])
  { control := "CC6.2", name := "CORS Configuration",
    passed := issues.length = 0, issues := issues }

/-- jsParseInt embeds JavaScript `parseInt` on the strings this code feeds
it: the longest leading run of decimal digits, `none` standing for `NaN`. -/
def jsParseInt (s : String) : Option Nat :=
  let ds := s.data.takeWhile Char.isDigit
  if ds.isEmpty then none
  else some (ds.foldl (fun n c => n * 10 + (c.toNat - 48)) 0)

/-- optGtNat models a JavaScript `>` comparison whose left side may be `NaN`
(`none`): any comparison against `NaN` is false. -/
def optGtNat (o : Option Nat) (k : Nat) : Bool :=
  match o with
  | none => false
  | some h => h > k

/-- checkTokenExpiry embeds `ComplianceMonitor.checkTokenExpiry`:
`JWT_EXPIRES_TIME` (default `24h`) is parsed into hours ('h' suffix = hours,
otherwise a day count multiplied by 24); more than 6 hours is one issue, and
more than 12 hours without `JWT_REFRESH_EXPIRES_TIME` is another. -/
def checkTokenExpiry (env : MonitorEnv) : CheckResult :=
  let expiry := env.jwtExpiresTime.getD "24h"
  let hours : Option Nat :=
    if expiry.data.getLast? = some 'h' then jsParseInt expiry
    else (jsParseInt expiry).map (fun n => n * 24)
  let issues :=
    (if optGtNat hours 6 then
      ["Token expiration exceeds recommendation"] else []) ++
    (if env.jwtRefreshExpiresTime = none ∧ optGtNat hours 12 then
      ["Long token expiration without refresh token system"] else [])
  { control := "CC6.1", name := "Token Expiration Policy",
    passed := issues.length = 0, issues := issues }

/-- checksList embeds the `Promise.all` array in
`ComplianceMonitor.runContinuousChecks`: the seven registered checks, in
registration order. -/
def checksList (env : MonitorEnv) : List CheckResult :=
  [checkAuth env, checkEncryption env, checkDatabase env, checkLogs env,
   checkRateLimit env, checkCORS env, checkTokenExpiry env]

/-- toFixed1Pct embeds the JavaScript expression
`((passed / total) * 100).toFixed(1) + '%'` on the exact rational value
(round half up at the first decimal; for every value produced by 7 checks the
double computation has the same result, no tie arising). -/
def toFixed1Pct (passed total : Nat) : String :=
  let r := (2 * (passed * 1000) + total) / (2 * total)
  toString (r / 10) ++ "." ++ toString (r % 10) ++ "%"

/-- toFixed2Pct embeds `((passed / total) * 100).toFixed(2) + '%'` the same
way, with two decimals. -/
def toFixed2Pct (passed total : Nat) : String :=
  let r := (2 * (passed * 10000) + total) / (2 * total)
  toString (r / 100) ++ "." ++ (if r % 100 < 10 then "0" else "") ++ toString (r % 100) ++ "%"

/-- RunSummary embeds the summary object returned by
`ComplianceMonitor.runContinuousChecks` (its `timestamp` is not needed by any
claim). -/
structure RunSummary where
  totalChecks : Nat
  passed : Nat
  failed : Nat
  passRate : String
  details : List CheckResult
  deriving Repr, DecidableEq

/-- runChecks embeds `ComplianceMonitor.runContinuousChecks`: run the seven
checks, count failures, and return the summary (the audit-event write and the
in-memory audit log are side effects with no bearing on the returned
summary). -/
def runChecks (env : MonitorEnv) : RunSummary :=
  let checks := checksList env
  let failed := checks.filter (fun r => !r.passed)
  let total := checks.length
  let passed := total - failed.length
  { totalChecks := total, passed := passed, failed := failed.length,
    passRate := toFixed1Pct passed total, details := checks }

example : toFixed1Pct 6 7 = "85.7%" := by decide
example : toFixed2Pct 6 7 = "85.71%" := by decide
example : toFixed1Pct 7 7 = "100.0%" := by decide
example : toFixed2Pct 7 7 = "100.00%" := by decide
def envAllGood : MonitorEnv :=
  { secretToken := some "0123456789abcdef0123456789abcdef"
    dbReadyState := 1
    dbCountDocs := Except.ok 5
    recentLogsCount := Except.ok 3
    totalLogsCount := Except.ok 5
    jwtExpiresTime := some "6h"
    jwtRefreshExpiresTime := some "7d" }

example : (checkAuth envAllGood).passed = true := by decide
example : (runChecks envAllGood).passed = 7 := by decide

-- ============================================================================
-- C2: run summary arithmetic and the passRate format
-- ============================================================================

lemma runChecks_counts (env : MonitorEnv) :
    (runChecks env).passed + (runChecks env).failed = (runChecks env).totalChecks ∧
    (runChecks env).totalChecks = 7 := by
  constructor
  · show (checksList env).length - ((checksList env).filter (fun r => !r.passed)).length +
        ((checksList env).filter (fun r => !r.passed)).length = (checksList env).length
    have hle := List.length_filter_le (fun r => !r.passed) (checksList env)
    omega
  · rfl

def c2Env : MonitorEnv := { envAllGood with secretToken := none }

/-- C2 counterexample: with six of the seven checks passing the summary's
`passRate` is the one-decimal percentage string `85.7%`, not `passed/total`
expressed to two decimals (`85.71%` as the two-decimal percentage — and not a
two-decimal ratio `0.86` either, as the field carries a percent sign). -/
theorem C2_passRate_counterexample :
    (runChecks c2Env).passed = 6 ∧
    (runChecks c2Env).totalChecks = 7 ∧
    (runChecks c2Env).passRate = "85.7%" ∧
    toFixed2Pct 6 7 = "85.71%" ∧
    (runChecks c2Env).passRate ≠
      toFixed2Pct (runChecks c2Env).passed (runChecks c2Env).totalChecks := by
  decide

/-- C2 (amended): `runChecks` over the seven registered checks always returns
a summary with `passed + failed = totalChecks = 7`, and its `passRate` is the
percentage `passed/total * 100` formatted to ONE decimal place with a percent
sign (JavaScript `toFixed(1) + '%'`), not to two decimals. -/
theorem runChecks_summary (env : MonitorEnv) :
    (runChecks env).passed + (runChecks env).failed = (runChecks env).totalChecks ∧
    (runChecks env).totalChecks = 7 ∧
    (runChecks env).passRate = toFixed1Pct (runChecks env).passed 7 := by
  exact ⟨(runChecks_counts env).1, (runChecks_counts env).2, rfl⟩

-- ============================================================================
-- C3: a throwing check is caught, never aborting the run
-- ============================================================================

/-- C3: when the fallible database calls inside `checkDatabase` and
`checkLogs` throw, each check catches its exception and reports
`passed = false` with the error message as its issue (exactly
`[errorMessage]` whenever no other issue applies); the run is never aborted:
`runChecks` still returns a complete summary over all seven checks. -/
theorem check_throw_converted (env : MonitorEnv) (e1 e2 : String)
    (hdb : env.dbCountDocs = Except.error e1)
    (hlog : env.recentLogsCount = Except.error e2) :
    (checkDatabase env).passed = false ∧
    ("Database connectivity error: " ++ e1) ∈ (checkDatabase env).issues ∧
    (checkDatabase env).issues ≠ [] ∧
    (env.dbReadyState = 1 →
      (checkDatabase env).issues = [("Database connectivity error: " ++ e1)]) ∧
    (checkLogs env).passed = false ∧
    (checkLogs env).issues = [("Error checking logs: " ++ e2)] ∧
    (runChecks env).totalChecks = 7 ∧
    ((runChecks env).details).length = 7 ∧
    (runChecks env).passed + (runChecks env).failed = (runChecks env).totalChecks := by
  refine ⟨?_, ?_, ?_, ?_, ?_, ?_, rfl, rfl, (runChecks_counts env).1⟩
  · simp only [checkDatabase, hdb]
    split <;> simp
  · simp only [checkDatabase, hdb]
    split <;> simp
  · simp only [checkDatabase, hdb]
    split <;> simp
  · intro h1
    simp [checkDatabase, hdb, h1]
  · simp [checkLogs, hlog]
  · simp [checkLogs, hlog]

def c3Env : MonitorEnv :=
  { envAllGood with dbCountDocs := Except.error ("query timed out"),
                    recentLogsCount := Except.error ("connection lost") }

/-- C3 witness: in an environment whose two audit-log queries throw, both
checks fail gracefully and the run summary still covers all seven checks. -/
theorem check_throw_converted_witness :
    (checkDatabase c3Env).passed = false ∧
    (checkLogs c3Env).issues = [("Error checking logs: " ++ ("connection lost"))] ∧
    (runChecks c3Env).totalChecks = 7 := by
  have h := check_throw_converted c3Env ("query timed out") ("connection lost") rfl rfl
  exact ⟨h.1, h.2.2.2.2.2.1, h.2.2.2.2.2.2.1⟩

-- ============================================================================
-- C8: generateReport over the run history
-- ============================================================================

/-- Report embeds the report object returned by
`ComplianceMonitor.generateReport` (the `startTime`/`endTime`/`results`
echoes are not needed by any claim). -/
structure Report where
  period : String
  totalRuns : Nat
  totalChecks : Nat
  totalPassed : Nat
  totalFailed : Nat
  averagePassRate : String
  complianceStatus : String
  deriving Repr, DecidableEq

/-- windowMs embeds `ms[period] || ms['24h']`: the four recognized windows,
anything else defaulting to 24 hours. -/
def windowMs (period : String) : Nat :=
  if period = "1h" then 3600000
  else if period = "24h" then 86400000
  else if period = "7d" then 604800000
  else if period = "30d" then 2592000000
  else 86400000

/-- generateReport embeds `ComplianceMonitor.generateReport(period)` at time
`now` over `this.results` (a list of `(timestamp, summary)` entries): filter
the history to `t >= start`, and if nothing remains return the
`No checks run` object (`none` here); otherwise sum the per-run totals and
report COMPLIANT exactly when no failure was summed. -/
def generateReport (period : String) (now : Nat)
    (history : List (Nat × RunSummary)) : Option Report :=
  let start := now - windowMs period
  let results := (history.filter (fun p => start ≤ p.1)).map Prod.snd
  if results.isEmpty then none
  else
    let total := (results.map RunSummary.totalChecks).sum
    let passed := (results.map RunSummary.passed).sum
    let failed := (results.map RunSummary.failed).sum
    some { period := period, totalRuns := results.length, totalChecks := total,
           totalPassed := passed, totalFailed := failed,
           averagePassRate := toFixed2Pct passed total,
           complianceStatus := if failed = 0 then "COMPLIANT" else "NON-COMPLIANT" }

/-- C8: whenever at least one run falls inside the requested wall-clock
window, `generateReport` returns a report whose totals are the sums over
exactly the in-window runs, whose `averagePassRate` is the two-decimal
percentage of summed passed over summed checks, and whose status is
COMPLIANT exactly when the summed failure count is zero. -/
theorem generateReport_window_sums (period : String) (now : Nat)
    (history : List (Nat × RunSummary))
    (hne : (history.filter (fun p => now - windowMs period ≤ p.1)) ≠ []) :
    ∀ rep, generateReport period now history = some rep →
      rep.totalRuns = (history.filter (fun p => now - windowMs period ≤ p.1)).length ∧
      rep.totalChecks =
        ((history.filter (fun p => now - windowMs period ≤ p.1)).map
          (fun p => p.2.totalChecks)).sum ∧
      rep.totalPassed =
        ((history.filter (fun p => now - windowMs period ≤ p.1)).map
          (fun p => p.2.passed)).sum ∧
      rep.totalFailed =
        ((history.filter (fun p => now - windowMs period ≤ p.1)).map
          (fun p => p.2.failed)).sum ∧
      rep.averagePassRate = toFixed2Pct rep.totalPassed rep.totalChecks ∧
      (rep.complianceStatus = "COMPLIANT" ↔ rep.totalFailed = 0) := by
  intro rep hrep
  have hne2 : (((history.filter (fun p => now - windowMs period ≤ p.1)).map
      Prod.snd).isEmpty) = false := by
    simp only [List.isEmpty_eq_false, ne_eq, List.map_eq_nil_iff]
    exact hne
  rw [generateReport] at hrep
  simp only [hne2, if_false] at hrep
  obtain rfl : rep = _ := Option.some.injEq _ _ ▸ hrep.symm
  refine ⟨?_, ?_, ?_, ?_, ?_, ?_⟩
  · simp
  · simp [List.map_map]
    rfl
  · simp [List.map_map]
    rfl
  · simp [List.map_map]
    rfl
  · rfl
  · by_cases hf : (((history.filter (fun p => now - windowMs period ≤ p.1)).map
        Prod.snd).map RunSummary.failed).sum = 0
    · simp [hf]
    · constructor
      · intro hstat
        rw [show (Report.complianceStatus _) =
            (if (((history.filter (fun p => now - windowMs period ≤ p.1)).map
              Prod.snd).map RunSummary.failed).sum = 0 then "COMPLIANT"
             else "NON-COMPLIANT") from rfl, if_neg hf] at hstat
        exact absurd hstat (by decide)
      · intro hzero
        exact absurd hzero hf

def c8Summary1 : RunSummary :=
  { totalChecks := 7, passed := 7, failed := 0, passRate := "100.0%", details := [] }

def c8Summary2 : RunSummary :=
  { totalChecks := 7, passed := 6, failed := 1, passRate := "85.7%", details := [] }

/-- c8History holds two runs: one at 100 ms (outside a 24h window ending at
86401000 ms) and one at 5000 ms (inside it). -/
def c8History : List (Nat × RunSummary) := [(100, c8Summary1), (5000, c8Summary2)]

def c8Report : Report :=
  { period := "24h", totalRuns := 1, totalChecks := 7, totalPassed := 6,
    totalFailed := 1, averagePassRate := "85.71%", complianceStatus := "NON-COMPLIANT" }

/-- C8 witness: a 24h report at 86401000 ms over `c8History` keeps only the
in-window run, sums its totals, formats the two-decimal average pass rate,
and is NON-COMPLIANT because one failure fell inside the window. -/
theorem generateReport_window_sums_witness :
    c8Report.totalRuns = 1 ∧ c8Report.totalChecks = 7 ∧ c8Report.totalPassed = 6 ∧
    c8Report.totalFailed = 1 ∧
    c8Report.averagePassRate = toFixed2Pct c8Report.totalPassed c8Report.totalChecks ∧
    (c8Report.complianceStatus = "COMPLIANT" ↔ c8Report.totalFailed = 0) := by
  have h := generateReport_window_sums ("24h") 86401000 c8History (by decide)
      c8Report (by decide)
  exact h

-- ============================================================================
-- C9: audit-log retention declared once per category schema
-- ============================================================================

/-- AuditCategory enumerates the four audit-event schemas. -/
inductive AuditCategory
  | FINANCIAL
  | SECURITY
  | CONFIDENTIAL
  | PRIVACY
  deriving Repr, DecidableEq

/-- retentionSeconds embeds the single `expireAfterSeconds` TTL index each
schema declares on its `timestamp` field at schema-definition time
(`FinancialSchema.index`, `SecuritySchema.index`, `ConfidentialSchema.index`,
`PrivacySchema.index`). -/
def retentionSeconds : AuditCategory → Nat
  | AuditCategory.FINANCIAL => 220752000
  | AuditCategory.SECURITY => 7776000
  | AuditCategory.CONFIDENTIAL => 7776000
  | AuditCategory.PRIVACY => 220752000

/-- C9: the declared time-to-live values match the retention policy —
90 days (7,776,000 s) for SECURITY and CONFIDENTIAL events, 7 years of 365
days (220,752,000 s) for FINANCIAL and PRIVACY events. -/
theorem retention_matches_policy :
    retentionSeconds AuditCategory.SECURITY = 90 * 24 * 60 * 60 ∧
    retentionSeconds AuditCategory.CONFIDENTIAL = 90 * 24 * 60 * 60 ∧
    retentionSeconds AuditCategory.FINANCIAL = 7 * 365 * 24 * 60 * 60 ∧
    retentionSeconds AuditCategory.PRIVACY = 7 * 365 * 24 * 60 * 60 ∧
    retentionSeconds AuditCategory.SECURITY = 7776000 ∧
    retentionSeconds AuditCategory.FINANCIAL = 220752000 := by
  decide

-- ============================================================================
-- Fraud detection (class FraudDetectionSystem)
-- ============================================================================

/-- Txn embeds the transaction object passed to `analyzeTransaction`; the
recent-transaction history is the list a `getRecentTransactions(userId,
600000)` lookup would return, passed explicitly. -/
structure Txn where
  id : String
  userId : String
  amount : Int
  ip : String
  deriving Repr, DecidableEq

/-- suspicious172Prefixes spells out the prefixes matched by the regex
`^172\.(1[6-9]|2[0-9]|3[0-1])\.` — the private range 172.16. through 172.31. -/
def suspicious172Prefixes : List String :=
  ["172.16.", "172.17.", "172.18.", "172.19.", "172.20.", "172.21.", "172.22.",
   "172.23.", "172.24.", "172.25.", "172.26.", "172.27.", "172.28.", "172.29.",
   "172.30.", "172.31."]

/-- ipMatchesSuspicious embeds `suspicious.some(p => p.test(ip))` over the
three anchored private-range patterns `^10\.`, `^192\.168\.` and
`^172\.(1[6-9]|2[0-9]|3[0-1])\.`. -/
def ipMatchesSuspicious (ip : String) : Bool :=
  ("10.").data.isPrefixOf ip.data ||
  ("192.168.").data.isPrefixOf ip.data ||
  suspicious172Prefixes.any (fun p => p.data.isPrefixOf ip.data)

/-- IPReputation embeds the object returned by
`FraudDetectionSystem.checkIPReputation`. -/
structure IPReputation where
  isProxy : Bool
  isTor : Bool
  isVPN : Bool
  riskScore : Nat
  deriving Repr, DecidableEq

/-- checkIPReputation embeds `FraudDetectionSystem.checkIPReputation(ip)`:
private-range sources count as proxies; `isTor`/`isVPN` are always false. -/
def checkIPReputation (ip : String) : IPReputation :=
  let isProxy := ipMatchesSuspicious ip
  { isProxy := isProxy, isTor := false, isVPN := false,
    riskScore := if isProxy then 20 else 0 }

/-- velocityThreshold embeds `this.thresholds.VELOCITY = 5`. -/
def velocityThreshold : Nat := 5

/-- highValueThreshold embeds `this.thresholds.HIGH_VALUE = 1000`. -/
def highValueThreshold : Int := 1000

/-- FraudResult embeds the object returned by `analyzeTransaction`. -/
structure FraudResult where
  approved : Bool
  riskScore : Nat
  flags : List String
  requiresManualReview : Bool
  decision : String
  deriving Repr, DecidableEq

/-- fraudScore embeds the `score` accumulated by
`FraudDetectionSystem.analyzeTransaction(t)` with the recent history passed
explicitly: the four weighted rules fire in source order — velocity +30
(at least 5 recent transactions), high value +20 (`amount > 1000`),
duplicate amount +25, suspicious source +40. -/
def fraudScore (t : Txn) (recent : List Txn) : Nat :=
  (if recent.length ≥ velocityThreshold then 30 else 0) +
  (if t.amount > highValueThreshold then 20 else 0) +
  (if (recent.filter (fun r => r.amount = t.amount)).length > 0 then 25 else 0) +
  (if (checkIPReputation t.ip).isProxy || (checkIPReputation t.ip).isTor then 40 else 0)

/-- fraudFlags embeds the `flags` list pushed alongside the score, in the
same rule order. -/
def fraudFlags (t : Txn) (recent : List Txn) : List String :=
  (if recent.length ≥ velocityThreshold then ["HIGH_VELOCITY"] else []) ++
  (if t.amount > highValueThreshold then ["HIGH_VALUE"] else []) ++
  (if (recent.filter (fun r => r.amount = t.amount)).length > 0 then ["DUPLICATE"] else []) ++
  (if (checkIPReputation t.ip).isProxy || (checkIPReputation t.ip).isTor then
    ["SUSPICIOUS_IP"] else [])

/-- analyzeTransaction embeds `FraudDetectionSystem.analyzeTransaction(t)`:
the decision blocks exactly above score 50, and scores in (30, 50] require
manual review. -/
def analyzeTransaction (t : Txn) (recent : List Txn) : FraudResult :=
  { approved := fraudScore t recent ≤ 50
    riskScore := fraudScore t recent
    flags := fraudFlags t recent
    requiresManualReview :=
      decide (fraudScore t recent > 30) && decide (fraudScore t recent ≤ 50)
    decision := if fraudScore t recent > 50 then "BLOCKED" else "APPROVED" }

example : ipMatchesSuspicious ("8.8.8.8") = false := by decide
example : ipMatchesSuspicious ("192.168.1.9") = true := by decide
example : ipMatchesSuspicious ("172.31.0.1") = true := by decide
example : ipMatchesSuspicious ("172.32.0.1") = false := by decide

-- ============================================================================
-- C4: fraud scoring scenario and decision thresholds
-- ============================================================================

/-- C4: a 1500-unit transaction with exactly five recent transactions, a
duplicate amount among them, and a non-suspicious source scores
30 + 20 + 25 = 75 with decision BLOCKED and flags exactly
HIGH_VELOCITY, HIGH_VALUE, DUPLICATE; in general the decision is BLOCKED
exactly when the score exceeds 50, APPROVED otherwise, and manual review is
required exactly when the score is in (30, 50]. -/
theorem fraud_scoring_spec :
    (∀ (t : Txn) (recent : List Txn),
      t.amount = 1500 → recent.length = 5 →
      (recent.filter (fun r => r.amount = t.amount)).length > 0 →
      ipMatchesSuspicious t.ip = false →
      (analyzeTransaction t recent).riskScore = 75 ∧
      (analyzeTransaction t recent).decision = "BLOCKED" ∧
      (analyzeTransaction t recent).flags =
        [("HIGH_VELOCITY"), ("HIGH_VALUE"), ("DUPLICATE")]) ∧
    (∀ (t : Txn) (recent : List Txn),
      ((analyzeTransaction t recent).decision = "BLOCKED" ↔
        50 < (analyzeTransaction t recent).riskScore) ∧
      ((analyzeTransaction t recent).decision = "APPROVED" ↔
        (analyzeTransaction t recent).riskScore ≤ 50) ∧
      ((analyzeTransaction t recent).requiresManualReview = true ↔
        (30 < (analyzeTransaction t recent).riskScore ∧
         (analyzeTransaction t recent).riskScore ≤ 50))) := by
  constructor
  · intro t recent h1500 hlen hdup hip
    rw [h1500] at hdup
    have hex : ∃ x ∈ recent, x.amount = (1500 : Int) := by
      obtain ⟨x, hxmem⟩ := List.exists_mem_of_length_pos hdup
      rw [List.mem_filter] at hxmem
      exact ⟨x, hxmem.1, by simpa using hxmem.2⟩
    have hscore : fraudScore t recent = 75 := by
      simp [fraudScore, hlen, h1500, hdup, hex, checkIPReputation, hip,
        velocityThreshold, highValueThreshold]
    have hflags : fraudFlags t recent =
        [("HIGH_VELOCITY"), ("HIGH_VALUE"), ("DUPLICATE")] := by
      simp [fraudFlags, hlen, h1500, hdup, hex, checkIPReputation, hip,
        velocityThreshold, highValueThreshold]
    refine ⟨hscore, ?_, hflags⟩
    show (if fraudScore t recent > 50 then "BLOCKED" else "APPROVED") = "BLOCKED"
    rw [hscore]
    decide
  · intro t recent
    refine ⟨?_, ?_, ?_⟩
    · show (if fraudScore t recent > 50 then "BLOCKED" else "APPROVED") = "BLOCKED" ↔
        50 < fraudScore t recent
      constructor
      · intro hdec
        by_contra hnot
        rw [if_neg hnot] at hdec
        exact absurd hdec (by decide)
      · intro h
        rw [if_pos h]
    · show (if fraudScore t recent > 50 then "BLOCKED" else "APPROVED") = "APPROVED" ↔
        fraudScore t recent ≤ 50
      constructor
      · intro hdec
        by_contra hnot
        rw [if_pos (by omega)] at hdec
        exact absurd hdec (by decide)
      · intro h
        rw [if_neg (by omega)]
    · show (decide (fraudScore t recent > 30) && decide (fraudScore t recent ≤ 50)) = true ↔
        (30 < fraudScore t recent ∧ fraudScore t recent ≤ 50)
      simp

def c4Txn : Txn := { id := "tx-1", userId := "u-1", amount := 1500, ip := "8.8.8.8" }

def c4Recent : List Txn :=
  [{ id := "r1", userId := "u-1", amount := 1500, ip := "9.9.9.9" },
   { id := "r2", userId := "u-1", amount := 10, ip := "9.9.9.9" },
   { id := "r3", userId := "u-1", amount := 20, ip := "9.9.9.9" },
   { id := "r4", userId := "u-1", amount := 30, ip := "9.9.9.9" },
   { id := "r5", userId := "u-1", amount := 40, ip := "9.9.9.9" }]

/-- C4 witness at the spec's concrete scenario. -/
theorem fraud_scoring_spec_witness :
    (analyzeTransaction c4Txn c4Recent).riskScore = 75 ∧
    (analyzeTransaction c4Txn c4Recent).decision = "BLOCKED" ∧
    (analyzeTransaction c4Txn c4Recent).flags =
      [("HIGH_VELOCITY"), ("HIGH_VALUE"), ("DUPLICATE")] :=
  fraud_scoring_spec.1 c4Txn c4Recent (by decide) (by decide) (by decide) (by decide)

-- ============================================================================
-- C7: the fraud assessment is a pure function of its declared inputs
-- ============================================================================

/-- C7: two invocations of `analyzeTransaction` with the same amount, the
same recent-transaction history and the same source address return the same
`riskScore` and the same `decision`, whatever the other transaction fields
are. -/
theorem analyzeTransaction_deterministic (t1 t2 : Txn) (rec1 rec2 : List Txn)
    (ha : t1.amount = t2.amount) (hr : rec1 = rec2) (hip : t1.ip = t2.ip) :
    (analyzeTransaction t1 rec1).riskScore = (analyzeTransaction t2 rec2).riskScore ∧
    (analyzeTransaction t1 rec1).decision = (analyzeTransaction t2 rec2).decision := by
  subst hr
  have hs : fraudScore t1 rec1 = fraudScore t2 rec1 := by
    simp [fraudScore, ha, hip]
  constructor
  · exact hs
  · show (if fraudScore t1 rec1 > 50 then "BLOCKED" else "APPROVED") =
        (if fraudScore t2 rec1 > 50 then "BLOCKED" else "APPROVED")
    rw [hs]

/-- C7 witness: two transactions differing only in id and user produce the
same score and decision. -/
theorem analyzeTransaction_deterministic_witness :
    (analyzeTransaction { id := "a", userId := "u", amount := 1500, ip := "8.8.8.8" }
        c4Recent).riskScore =
      (analyzeTransaction { id := "b", userId := "v", amount := 1500, ip := "8.8.8.8" }
        c4Recent).riskScore ∧
    (analyzeTransaction { id := "a", userId := "u", amount := 1500, ip := "8.8.8.8" }
        c4Recent).decision =
      (analyzeTransaction { id := "b", userId := "v", amount := 1500, ip := "8.8.8.8" }
        c4Recent).decision :=
  analyzeTransaction_deterministic _ _ _ _ rfl rfl rfl
